import Mathlib

/-!
Verification of the violation detection and reporting pipeline of the
exam cheating-detection system.  The definitions below are a shallow
embedding of `src/main.py` (frame snapshot, per-frame violation
classifier, on-screen status rendering) and of
`src/reporting/report_generator.py` (severity map, `_calculate_stats`,
integrity score, chart generation and report export).
-/

namespace CheatingDetection

/-- One frame worth of detector outputs, as assembled into the
`results` dict of `main.py` (lines 123-137).  The eye openness ratio is
a real-valued detector output, modelled as a rational. -/
structure FrameSnapshot where
  face_present : Bool
  gaze_direction : String
  eye_openness : ℚ
  mouth_moving : Bool
  multiple_faces : Bool
  objects_detected : Bool
  timestamp : String
deriving DecidableEq

/-- Eye state label of `display_detection_results` (main.py line 40):
the string is "Open" when the ratio is strictly greater than 0.25,
otherwise "Closed". -/
def eyes_status (eye_openness : ℚ) : String :=
  if eye_openness > 0.25 then "Open" else "Closed"

/-- Status lines composed by `display_detection_results`
(main.py lines 37-42). -/
def status_items (r : FrameSnapshot) : List String :=
  ["Face: " ++ (if r.face_present then "Present" else "Absent"),
   "Gaze: " ++ r.gaze_direction,
   "Eyes: " ++ eyes_status r.eye_openness,
   "Mouth: " ++ (if r.mouth_moving then "Moving" else "Still")]

/-- The ordered condition list `violations_to_check` of `main.py`
(lines 140-145). -/
def violations_to_check (r : FrameSnapshot) : List (String × Bool) :=
  [("FACE_DISAPPEARED", !r.face_present),
   ("MULTIPLE_FACES", r.multiple_faces),
   ("OBJECT_DETECTED", r.objects_detected),
   ("MOUTH_MOVING", r.mouth_moving)]

/-- The per-frame violation classifier: `main.py` lines 147-158 iterate
over `violations_to_check` and `break` after the first condition that
holds, so at most one violation type fires per frame. -/
def classify (r : FrameSnapshot) : Option String :=
  ((violations_to_check r).find? (fun p => p.2)).map (fun p => p.1)

/-- A logged violation record.  `report_generator.py` reads the keys
`type` and `timestamp`; `details` is the free-form context mapping
passed by `main.py` line 156. -/
structure ViolationRecord where
  type : String
  timestamp : String
  details : List (String × String)
deriving DecidableEq

/-- The fixed severity map of `ReportGenerator.__init__`
(report_generator.py lines 25-32). -/
def severity_map : List (String × Nat) :=
  [("FACE_DISAPPEARED", 1),
   ("GAZE_AWAY", 2),
   ("MOUTH_MOVING", 3),
   ("MULTIPLE_FACES", 4),
   ("OBJECT_DETECTED", 5),
   ("AUDIO_DETECTED", 3)]

/-- Severity lookup with default 1, as in
`self.severity_map.get(violation['type'], 1)`
(report_generator.py lines 87 and 89). -/
def severityGet (t : String) : Nat :=
  (severity_map.lookup t).getD 1

/-- One entry of the `timeline` list built by `_calculate_stats`
(report_generator.py lines 84-88). -/
structure TimelineEntry where
  time : String
  type : String
  severity : Nat
deriving DecidableEq

/-- The mutable state threaded through the loop of `_calculate_stats`:
the `by_type` dict (modelled as an insertion-ordered association list),
the `timeline` list and the running `severity_score`. -/
structure StatsAcc where
  by_type : List (String × Nat)
  timeline : List TimelineEntry
  severity_score : Nat

/-- Python dict update `d[t] = d.get(t, 0) + 1`: the first existing
entry for the key is incremented in place, a missing key is appended at
the end (insertion order preserved). -/
def bumpType (bt : List (String × Nat)) (t : String) : List (String × Nat) :=
  match bt with
  | [] => [(t, 1)]
  | (k, n) :: rest =>
      if k = t then (k, n + 1) :: rest else (k, n) :: bumpType rest t

/-- The timeline entry built for one record
(report_generator.py lines 84-88). -/
def entryOf (v : ViolationRecord) : TimelineEntry :=
  ⟨v.timestamp, v.type, severityGet v.type⟩

/-- One iteration of the loop of `_calculate_stats`
(report_generator.py lines 82-89). -/
def statsStep (acc : StatsAcc) (v : ViolationRecord) : StatsAcc :=
  { by_type := bumpType acc.by_type v.type
    timeline := acc.timeline ++ [entryOf v]
    severity_score := acc.severity_score + severityGet v.type }

/-- The stats dict returned by `_calculate_stats`. -/
structure Stats where
  total : Nat
  by_type : List (String × Nat)
  timeline : List TimelineEntry
  severity_score : Nat
  average_severity : ℚ
deriving DecidableEq

/-- `ReportGenerator._calculate_stats` (report_generator.py lines
80-91): `total` is the input length, the loop accumulates `by_type`,
`timeline` and `severity_score`, and `average_severity` is
`severity_score / total` guarded by the truthiness of `total`. -/
def calculate_stats (violations : List ViolationRecord) : Stats :=
  let acc := violations.foldl statsStep ⟨[], [], 0⟩
  { total := violations.length
    by_type := acc.by_type
    timeline := acc.timeline
    severity_score := acc.severity_score
    average_severity :=
      if violations.length ≠ 0 then
        (acc.severity_score : ℚ) / (violations.length : ℚ)
      else 0 }

/-- `stats['integrity_score'] = max(0, 100 - stats['severity_score'] * 5)`
(report_generator.py line 38). -/
def integrity_score (severity_score : Nat) : Int :=
  max 0 (100 - (severity_score : Int) * 5)

/-- ASCII lowering of one character, the case relevant to
`str.lower()` on the format strings used here. -/
def lowerChar (c : Char) : Char :=
  if 65 ≤ c.toNat ∧ c.toNat ≤ 90 then Char.ofNat (c.toNat + 32) else c

/-- `str(output_format).lower()` (report_generator.py line 36),
restricted to ASCII. -/
def toLowerAscii (s : String) : String :=
  String.mk (s.data.map lowerChar)

/-- Environment of the fallible external effects of
`ReportGenerator.generate_report`: whether `pdfkit.from_string`
raises, whether matplotlib rendering raises inside
`_generate_timeline` or `_generate_heatmap`, and the
`datetime.now()` stamp used in the output filename. -/
structure ReportEnv where
  pdfFails : Bool
  timelineFails : Bool
  heatmapFails : Bool
  nowStamp : String
deriving DecidableEq

/-- `ReportGenerator._generate_timeline` (report_generator.py lines
93-120): empty input returns None before the try block; any exception
inside the try block is caught and returns None; otherwise the chart
file path is returned. -/
def generate_timeline (violations : List ViolationRecord)
    (student_id : String) (env : ReportEnv) : Option String :=
  if violations.isEmpty then none
  else if env.timelineFails then none
  else some ("images/timeline_" ++ student_id ++ ".png")

/-- `ReportGenerator._generate_heatmap` (report_generator.py lines
122-150): empty input returns None, then counts are accumulated, an
empty counts dict returns None, and a caught exception returns None;
otherwise the chart file path is returned. -/
def generate_heatmap (violations : List ViolationRecord)
    (student_id : String) (env : ReportEnv) : Option String :=
  if violations.isEmpty then none
  else
    let counts := violations.foldl (fun c v => bumpType c v.type) []
    if counts.isEmpty then none
    else if env.heatmapFails then none
    else some ("images/heatmap_" ++ student_id ++ ".png")

/-- Observable outcome of a successful `generate_report` call: the
stats block (with the integrity score added at line 38), the two
optional chart paths, the `has_images` flag of the template data, the
output path, and whether the document converter (`pdfkit`) produced
the artifact as opposed to a raw markup write. -/
structure ReportResult where
  stats : Stats
  integrity : Int
  timeline_image : Option String
  heatmap_image : Option String
  has_images : Bool
  path : String
  used_converter : Bool
deriving DecidableEq

/-- `ReportGenerator.generate_report` (report_generator.py lines
34-78).  The whole body is wrapped in try/except returning None on
failure; chart failures are caught inside the chart helpers and so
only degrade the corresponding image to None.  When the lowered format
is "pdf" the `pdfkit` converter runs (None on converter failure),
otherwise the markup is written verbatim to the output path. -/
def generate_report (student_id : String) (violations : List ViolationRecord)
    (output_format : String) (env : ReportEnv) : Option ReportResult :=
  let fmt := toLowerAscii output_format
  let stats := calculate_stats violations
  let integrity := integrity_score stats.severity_score
  let timeline_image := generate_timeline violations student_id env
  let heatmap_image := generate_heatmap violations student_id env
  let has_images := timeline_image.isSome || heatmap_image.isSome
  let output_path := "report_" ++ student_id ++ "_" ++ env.nowStamp ++ "." ++ fmt
  if fmt = "pdf" then
    if env.pdfFails then none
    else some ⟨stats, integrity, timeline_image, heatmap_image, has_images,
               output_path, true⟩
  else
    some ⟨stats, integrity, timeline_image, heatmap_image, has_images,
          output_path, false⟩

/-- The fixed five-record round-trip input of the testable properties:
two MULTIPLE_FACES, one OBJECT_DETECTED, one MOUTH_MOVING and one
FACE_DISAPPEARED. -/
def roundTripRecords : List ViolationRecord :=
  [⟨"MULTIPLE_FACES", "20250101_100000_000000", []⟩,
   ⟨"MULTIPLE_FACES", "20250101_100001_000000", []⟩,
   ⟨"OBJECT_DETECTED", "20250101_100002_000000", []⟩,
   ⟨"MOUTH_MOVING", "20250101_100003_000000", []⟩,
   ⟨"FACE_DISAPPEARED", "20250101_100004_000000", []⟩]

lemma lookup_cons_pair (k t : String) (n : Nat) (rest : List (String × Nat)) :
    List.lookup t ((k, n) :: rest) = if t = k then some n else List.lookup t rest := by
  rcases eq_or_ne t k with h | h
  · have hb : (t == k) = true := by simp [h]
    simp [List.lookup, hb, h]
  · have hb : (t == k) = false := by simp [h]
    simp [List.lookup, hb, h]

lemma bumpType_lookup (bt : List (String × Nat)) (t0 t : String) :
    List.lookup t (bumpType bt t0) =
      if t = t0 then some ((List.lookup t bt).getD 0 + 1)
      else List.lookup t bt := by
  induction bt with
  | nil =>
    simp only [bumpType, lookup_cons_pair, List.lookup_nil]
    rcases eq_or_ne t t0 with h | h <;> simp [h]
  | cons p rest ih =>
    obtain ⟨k, n⟩ := p
    by_cases hk : k = t0
    · subst hk
      simp only [bumpType, if_pos rfl]
      rcases eq_or_ne t k with h | h <;> simp [lookup_cons_pair, h]
    · simp only [bumpType, if_neg hk, lookup_cons_pair, ih]
      rcases eq_or_ne t k with h | h
      · subst h
        simp [hk]
      · simp [h]

lemma foldl_statsStep_timeline (l : List ViolationRecord) :
    ∀ acc : StatsAcc,
      (l.foldl statsStep acc).timeline = acc.timeline ++ l.map entryOf := by
  induction l with
  | nil => intro acc; simp
  | cons v rest ih =>
    intro acc
    simp [List.foldl_cons, ih, statsStep]

lemma foldl_statsStep_sev (l : List ViolationRecord) :
    ∀ acc : StatsAcc,
      (l.foldl statsStep acc).severity_score
        = acc.severity_score + (l.map (fun v => severityGet v.type)).sum := by
  induction l with
  | nil => intro acc; simp
  | cons v rest ih =>
    intro acc
    simp [List.foldl_cons, ih, statsStep]
    omega

lemma bumpType_snd_sum (bt : List (String × Nat)) (t : String) :
    ((bumpType bt t).map Prod.snd).sum = (bt.map Prod.snd).sum + 1 := by
  induction bt with
  | nil => simp [bumpType]
  | cons p rest ih =>
    obtain ⟨k, n⟩ := p
    by_cases hk : k = t
    · simp [bumpType, hk]
      omega
    · simp [bumpType, hk, ih]
      omega

lemma foldl_statsStep_bytype_sum (l : List ViolationRecord) :
    ∀ acc : StatsAcc,
      (((l.foldl statsStep acc).by_type).map Prod.snd).sum
        = ((acc.by_type.map Prod.snd).sum) + l.length := by
  induction l with
  | nil => intro acc; simp
  | cons v rest ih =>
    intro acc
    simp [List.foldl_cons, ih, statsStep, bumpType_snd_sum]
    omega

lemma foldl_statsStep_lookup (l : List ViolationRecord) :
    ∀ (acc : StatsAcc) (t : String),
      List.lookup t (l.foldl statsStep acc).by_type =
        if List.lookup t acc.by_type = none
            ∧ l.countP (fun v => v.type == t) = 0 then none
        else some ((List.lookup t acc.by_type).getD 0
                    + l.countP (fun v => v.type == t)) := by
  induction l with
  | nil =>
    intro acc t
    cases hl : List.lookup t acc.by_type <;> simp [hl]
  | cons v rest ih =>
    intro acc t
    rw [List.foldl_cons, ih, List.countP_cons]
    have hbt : (statsStep acc v).by_type = bumpType acc.by_type v.type := rfl
    rw [hbt, bumpType_lookup]
    by_cases h : t = v.type
    · have hb : (v.type == t) = true := by simp [h]
      simp only [h, if_pos rfl, hb, if_true]
      cases hl : List.lookup v.type acc.by_type <;> simp [hl] <;> omega
    · have hb : (v.type == t) = false := by
        simp [Ne.symm h]
      rw [if_neg h, hb]
      simp

lemma calculate_stats_timeline (l : List ViolationRecord) :
    (calculate_stats l).timeline = l.map entryOf := by
  simp [calculate_stats, foldl_statsStep_timeline]

lemma calculate_stats_sev (l : List ViolationRecord) :
    (calculate_stats l).severity_score
      = (l.map (fun v => severityGet v.type)).sum := by
  simp [calculate_stats, foldl_statsStep_sev]

lemma calculate_stats_bytype_sum (l : List ViolationRecord) :
    (((calculate_stats l).by_type).map Prod.snd).sum = l.length := by
  simp [calculate_stats, foldl_statsStep_bytype_sum]

lemma calculate_stats_average (l : List ViolationRecord) (h : l ≠ []) :
    (calculate_stats l).average_severity
      = ((calculate_stats l).severity_score : ℚ) / (l.length : ℚ) := by
  have hl : l.length ≠ 0 := fun hh => h (List.length_eq_zero.mp hh)
  simp [calculate_stats, hl]

lemma calculate_stats_lookup (l : List ViolationRecord) (t : String) :
    List.lookup t (calculate_stats l).by_type =
      if l.countP (fun v => v.type == t) = 0 then none
      else some (l.countP (fun v => v.type == t)) := by
  have h := foldl_statsStep_lookup l ⟨[], [], 0⟩ t
  simp only [List.lookup_nil, Option.getD_none, true_and, Nat.zero_add] at h
  simp [calculate_stats]
  simpa using h

lemma bumpType_ne_nil (bt : List (String × Nat)) (t : String) :
    bumpType bt t ≠ [] := by
  cases bt with
  | nil => simp [bumpType]
  | cons p rest =>
    obtain ⟨k, n⟩ := p
    by_cases h : k = t <;> simp [bumpType, h]

lemma foldl_bumpType_ne_nil (l : List ViolationRecord) :
    ∀ acc : List (String × Nat), acc ≠ [] →
      l.foldl (fun c v => bumpType c v.type) acc ≠ [] := by
  induction l with
  | nil => intro acc h; simpa using h
  | cons v rest ih =>
    intro acc _
    simp only [List.foldl_cons]
    exact ih _ (bumpType_ne_nil _ _)

lemma generate_heatmap_some (l : List ViolationRecord) (sid : String)
    (env : ReportEnv) (hne : l ≠ []) (hf : env.heatmapFails = false) :
    generate_heatmap l sid env
      = some ("images/heatmap_" ++ sid ++ ".png") := by
  cases l with
  | nil => exact absurd rfl hne
  | cons v rest =>
    have hcounts : rest.foldl (fun c w => bumpType c w.type)
        (bumpType [] v.type) ≠ [] :=
      foldl_bumpType_ne_nil rest _ (bumpType_ne_nil _ _)
    simp [generate_heatmap, hf, hcounts]

lemma generate_timeline_none_of_fails (l : List ViolationRecord)
    (sid : String) (env : ReportEnv) (hf : env.timelineFails = true) :
    generate_timeline l sid env = none := by
  simp [generate_timeline, hf]

lemma generate_timeline_some (l : List ViolationRecord) (sid : String)
    (env : ReportEnv) (hne : l ≠ []) (hf : env.timelineFails = false) :
    generate_timeline l sid env
      = some ("images/timeline_" ++ sid ++ ".png") := by
  cases l with
  | nil => exact absurd rfl hne
  | cons v rest => simp [generate_timeline, hf]

lemma generate_heatmap_none_of_fails (l : List ViolationRecord)
    (sid : String) (env : ReportEnv) (hf : env.heatmapFails = true) :
    generate_heatmap l sid env = none := by
  simp [generate_heatmap, hf]

/-- C1: the per-frame violation classifier emits at most one violation
(its result is Option-valued) and follows the fixed priority order
FACE_DISAPPEARED, MULTIPLE_FACES, OBJECT_DETECTED, MOUTH_MOVING with
the first matching condition winning; in particular a frame with
`face_present = false` and `multiple_faces = true` classifies as
FACE_DISAPPEARED, never MULTIPLE_FACES. -/
theorem c1_classifier_priority (r : FrameSnapshot)
    (hf : r.face_present = false) (_hm : r.multiple_faces = true) :
    (∀ s : FrameSnapshot,
      classify s =
        if s.face_present = false then some "FACE_DISAPPEARED"
        else if s.multiple_faces = true then some "MULTIPLE_FACES"
        else if s.objects_detected = true then some "OBJECT_DETECTED"
        else if s.mouth_moving = true then some "MOUTH_MOVING"
        else none) ∧
    classify r = some "FACE_DISAPPEARED" := by
  have key : ∀ s : FrameSnapshot,
      classify s =
        if s.face_present = false then some "FACE_DISAPPEARED"
        else if s.multiple_faces = true then some "MULTIPLE_FACES"
        else if s.objects_detected = true then some "OBJECT_DETECTED"
        else if s.mouth_moving = true then some "MOUTH_MOVING"
        else none := by
    intro s
    obtain ⟨fp, g, e, mm, mf, od, ts⟩ := s
    cases fp <;> cases mf <;> cases od <;> cases mm <;>
      simp [classify, violations_to_check]
  refine ⟨key, ?_⟩
  rw [key r, if_pos hf]

/-- Witness for c1_classifier_priority at a concrete snapshot with no
face present and multiple faces detected. -/
theorem c1_classifier_priority_witness :
    classify ⟨false, "Center", 3/10, false, true, false, "t0"⟩
      = some "FACE_DISAPPEARED" :=
  (c1_classifier_priority ⟨false, "Center", 3/10, false, true, false, "t0"⟩
    rfl rfl).2

/-- C2: on the empty violation list the stats engine yields total 0,
severity score 0, average severity 0 and integrity score 100; the
average is defined (no division by zero) because the division is
guarded by the truthiness of the total. -/
theorem c2_empty_stats :
    (calculate_stats []).total = 0 ∧
    (calculate_stats []).severity_score = 0 ∧
    (calculate_stats []).average_severity = 0 ∧
    integrity_score (calculate_stats []).severity_score = 100 := by
  refine ⟨rfl, rfl, ?_, ?_⟩
  · simp [calculate_stats]
  · simp [calculate_stats, integrity_score]

/-- C3: the integrity score is exactly max(0, 100 - severityScore * 5),
appending any further record never increases it, and it never drops
below 0. -/
theorem c3_integrity_monotone (l : List ViolationRecord) (v : ViolationRecord) :
    integrity_score (calculate_stats l).severity_score
        = max 0 (100 - ((calculate_stats l).severity_score : Int) * 5) ∧
    integrity_score (calculate_stats (l ++ [v])).severity_score
        ≤ integrity_score (calculate_stats l).severity_score ∧
    0 ≤ integrity_score (calculate_stats l).severity_score := by
  refine ⟨rfl, ?_, le_max_left _ _⟩
  have hsev : (calculate_stats l).severity_score
      ≤ (calculate_stats (l ++ [v])).severity_score := by
    simp [calculate_stats_sev]
  unfold integrity_score
  apply max_le_max le_rfl
  omega

/-- C9: the fixed five-record round trip (2 MULTIPLE_FACES,
1 OBJECT_DETECTED, 1 MOUTH_MOVING, 1 FACE_DISAPPEARED) under the fixed
severity weights 1/3/4/5 yields severity score 17, average severity
3.4 and integrity score 15. -/
theorem c9_round_trip :
    severityGet "FACE_DISAPPEARED" = 1 ∧
    severityGet "MOUTH_MOVING" = 3 ∧
    severityGet "MULTIPLE_FACES" = 4 ∧
    severityGet "OBJECT_DETECTED" = 5 ∧
    (calculate_stats roundTripRecords).severity_score = 17 ∧
    (calculate_stats roundTripRecords).average_severity = 3.4 ∧
    integrity_score (calculate_stats roundTripRecords).severity_score = 15 := by
  refine ⟨rfl, rfl, rfl, rfl, rfl, ?_, rfl⟩
  rw [calculate_stats_average roundTripRecords (by simp [roundTripRecords]),
      show (calculate_stats roundTripRecords).severity_score = 17 from rfl,
      show roundTripRecords.length = 5 from rfl]
  norm_num

/-- C10: internal consistency of the stats: total equals the timeline
length, total equals the sum of the per-type counts, and the severity
score equals the sum of the severities over the timeline entries. -/
theorem c10_stats_invariant (l : List ViolationRecord) :
    (calculate_stats l).total = (calculate_stats l).timeline.length ∧
    (calculate_stats l).total
        = (((calculate_stats l).by_type).map Prod.snd).sum ∧
    (calculate_stats l).severity_score
        = ((calculate_stats l).timeline.map TimelineEntry.severity).sum := by
  refine ⟨?_, ?_, ?_⟩
  · rw [calculate_stats_timeline]
    simp [calculate_stats]
  · rw [calculate_stats_bytype_sum]
    rfl
  · rw [calculate_stats_timeline, calculate_stats_sev, List.map_map]
    rfl

/-- C4: shuffling the input leaves the per-type counts (as a mapping)
and the severity score unchanged, while the timeline is exactly the
per-record entries in original input order. -/
theorem c4_permutation (l l2 : List ViolationRecord) (t : String)
    (h : l.Perm l2) :
    List.lookup t (calculate_stats l).by_type
        = List.lookup t (calculate_stats l2).by_type ∧
    (calculate_stats l).severity_score = (calculate_stats l2).severity_score ∧
    (calculate_stats l).timeline = l.map entryOf := by
  refine ⟨?_, ?_, calculate_stats_timeline l⟩
  · rw [calculate_stats_lookup, calculate_stats_lookup,
        h.countP_eq (fun v => v.type == t)]
  · rw [calculate_stats_sev, calculate_stats_sev]
    exact (h.map (fun v => severityGet v.type)).sum_eq

/-- Witness for c4_permutation on a two-record list and its swap. -/
theorem c4_permutation_witness :
    List.lookup "MULTIPLE_FACES"
        (calculate_stats
          [⟨"MULTIPLE_FACES", "ta", []⟩, ⟨"FACE_DISAPPEARED", "tb", []⟩]).by_type
      = List.lookup "MULTIPLE_FACES"
        (calculate_stats
          [⟨"FACE_DISAPPEARED", "tb", []⟩, ⟨"MULTIPLE_FACES", "ta", []⟩]).by_type ∧
    (calculate_stats
        [⟨"MULTIPLE_FACES", "ta", []⟩, ⟨"FACE_DISAPPEARED", "tb", []⟩]).severity_score
      = (calculate_stats
          [⟨"FACE_DISAPPEARED", "tb", []⟩, ⟨"MULTIPLE_FACES", "ta", []⟩]).severity_score ∧
    (calculate_stats
        [⟨"MULTIPLE_FACES", "ta", []⟩, ⟨"FACE_DISAPPEARED", "tb", []⟩]).timeline
      = [⟨"MULTIPLE_FACES", "ta", []⟩, ⟨"FACE_DISAPPEARED", "tb", []⟩].map entryOf :=
  c4_permutation
    [⟨"MULTIPLE_FACES", "ta", []⟩, ⟨"FACE_DISAPPEARED", "tb", []⟩]
    [⟨"FACE_DISAPPEARED", "tb", []⟩, ⟨"MULTIPLE_FACES", "ta", []⟩]
    "MULTIPLE_FACES" (List.Perm.swap _ _ _)

/-- C7: a record whose type is not one of the six known violation
types contributes severity weight 1 to the severity score and to its
timeline entry; the lookup is total (dict get with default), so no
error is possible. -/
theorem c7_unknown_type_default (v : ViolationRecord) (l : List ViolationRecord)
    (h : v.type ∉ ["FACE_DISAPPEARED", "GAZE_AWAY", "MOUTH_MOVING",
                   "MULTIPLE_FACES", "OBJECT_DETECTED", "AUDIO_DETECTED"]) :
    severityGet v.type = 1 ∧
    (calculate_stats (l ++ [v])).severity_score
        = (calculate_stats l).severity_score + 1 ∧
    (calculate_stats (l ++ [v])).timeline
        = (calculate_stats l).timeline ++ [⟨v.timestamp, v.type, 1⟩] := by
  simp only [List.mem_cons, List.mem_singleton, not_or] at h
  obtain ⟨h1, h2, h3, h4, h5, h6⟩ := h
  have hsev : severityGet v.type = 1 := by
    simp [severityGet, severity_map, lookup_cons_pair, h1, h2, h3, h4, h5, h6]
  refine ⟨hsev, ?_, ?_⟩
  · simp [calculate_stats_sev, hsev]
  · simp [calculate_stats_timeline, entryOf, hsev]

/-- Witness for c7_unknown_type_default with the unmapped type
PHONE_DETECTED appended to a one-record list. -/
theorem c7_unknown_type_default_witness :
    severityGet (ViolationRecord.mk "PHONE_DETECTED" "tc" []).type = 1 ∧
    (calculate_stats ([⟨"MOUTH_MOVING", "td", []⟩]
        ++ [⟨"PHONE_DETECTED", "tc", []⟩])).severity_score
      = (calculate_stats [⟨"MOUTH_MOVING", "td", []⟩]).severity_score + 1 ∧
    (calculate_stats ([⟨"MOUTH_MOVING", "td", []⟩]
        ++ [⟨"PHONE_DETECTED", "tc", []⟩])).timeline
      = (calculate_stats [⟨"MOUTH_MOVING", "td", []⟩]).timeline
        ++ [⟨"tc", "PHONE_DETECTED", 1⟩] :=
  c7_unknown_type_default ⟨"PHONE_DETECTED", "tc", []⟩
    [⟨"MOUTH_MOVING", "td", []⟩] (by decide)

/-- C5 counterexample: an eye-openness ratio exactly equal to the
threshold 0.25 is labelled "Closed", not "Open": main.py line 40
compares with strict greater-than, so the claim as stated fails at
this input. -/
theorem c5_counterexample :
    eyes_status 0.25 = "Closed" ∧ eyes_status 0.25 ≠ "Open" := by
  constructor
  · simp [eyes_status]
  · simp [eyes_status]

/-- C5 amended: the openness comparison is strict: the label is "Open"
exactly when the ratio strictly exceeds the threshold 0.25, and a
ratio exactly equal to the threshold is labelled "Closed". -/
theorem c5_strict_threshold :
    (∀ q : ℚ, eyes_status q = "Open" ↔ 0.25 < q) ∧
    eyes_status 0.25 = "Closed" := by
  constructor
  · intro q
    by_cases h : 0.25 < q <;> simp [eyes_status, h]
  · simp [eyes_status]

/-- C6: the export format string is compared case-insensitively via
lowering; any format lowering to "pdf" produces the artifact through
the document converter, any other format writes the raw markup. -/
theorem c6_format_selection (sid fmtP fmtH : String)
    (l : List ViolationRecord) (envP envH : ReportEnv)
    (h1 : toLowerAscii fmtP = "pdf") (h2 : envP.pdfFails = false)
    (h3 : toLowerAscii fmtH ≠ "pdf") :
    (∃ r, generate_report sid l fmtP envP = some r
       ∧ r.used_converter = true) ∧
    (∃ r, generate_report sid l fmtH envH = some r
       ∧ r.used_converter = false) := by
  constructor
  · simp [generate_report, h1, h2]
  · simp [generate_report, h3]

/-- Witness for c6_format_selection with the mixed-case formats "PDF"
and "Html". -/
theorem c6_format_selection_witness :
    (∃ r, generate_report "STUDENT_001" [] "PDF" ⟨false, false, false, "s"⟩
        = some r ∧ r.used_converter = true) ∧
    (∃ r, generate_report "STUDENT_001" [] "Html" ⟨false, false, false, "s"⟩
        = some r ∧ r.used_converter = false) :=
  c6_format_selection "STUDENT_001" "PDF" "Html" []
    ⟨false, false, false, "s"⟩ ⟨false, false, false, "s"⟩
    (by decide) rfl (by decide)

/-- C8: a failing document conversion makes generate_report return
None (failure indicator, no artifact), while a failure inside either
chart helper is caught there independently and only degrades that one
chart to None: with a failing timeline chart the report is still
produced with its heatmap chart and stats unaffected, and with a
failing heatmap chart the report is still produced with its timeline
chart and stats unaffected. -/
theorem c8_failure_isolation (sid fmt : String) (l : List ViolationRecord)
    (env envC envD : ReportEnv)
    (h1 : toLowerAscii fmt = "pdf") (h2 : env.pdfFails = true)
    (h3 : envC.pdfFails = false) (h4 : envC.timelineFails = true)
    (h5 : envC.heatmapFails = false)
    (h7 : envD.pdfFails = false) (h8 : envD.timelineFails = false)
    (h9 : envD.heatmapFails = true) (h6 : l ≠ []) :
    generate_report sid l fmt env = none ∧
    (∃ r, generate_report sid l fmt envC = some r ∧
      r.timeline_image = none ∧
      r.heatmap_image = some ("images/heatmap_" ++ sid ++ ".png") ∧
      r.stats = calculate_stats l) ∧
    (∃ r, generate_report sid l fmt envD = some r ∧
      r.heatmap_image = none ∧
      r.timeline_image = some ("images/timeline_" ++ sid ++ ".png") ∧
      r.stats = calculate_stats l) := by
  refine ⟨?_, ?_, ?_⟩
  · simp [generate_report, h1, h2]
  · have hh := generate_heatmap_some l sid envC h6 h5
    have ht := generate_timeline_none_of_fails l sid envC h4
    simp [generate_report, h1, h3, ht, hh]
  · have ht := generate_timeline_some l sid envD h6 h8
    have hh := generate_heatmap_none_of_fails l sid envD h9
    simp [generate_report, h1, h7, ht, hh]

/-- Witness for c8_failure_isolation: converter failure on one
environment, timeline-chart failure on a second, heatmap-chart
failure on a third, over a one-record list. -/
theorem c8_failure_isolation_witness :
    generate_report "S1" [⟨"MOUTH_MOVING", "te", []⟩] "pdf"
        ⟨true, false, false, "n"⟩ = none ∧
    (∃ r, generate_report "S1" [⟨"MOUTH_MOVING", "te", []⟩] "pdf"
        ⟨false, true, false, "n"⟩ = some r ∧
      r.timeline_image = none ∧
      r.heatmap_image = some ("images/heatmap_" ++ "S1" ++ ".png") ∧
      r.stats = calculate_stats [⟨"MOUTH_MOVING", "te", []⟩]) ∧
    (∃ r, generate_report "S1" [⟨"MOUTH_MOVING", "te", []⟩] "pdf"
        ⟨false, false, true, "n"⟩ = some r ∧
      r.heatmap_image = none ∧
      r.timeline_image = some ("images/timeline_" ++ "S1" ++ ".png") ∧
      r.stats = calculate_stats [⟨"MOUTH_MOVING", "te", []⟩]) :=
  c8_failure_isolation "S1" "pdf" [⟨"MOUTH_MOVING", "te", []⟩]
    ⟨true, false, false, "n"⟩ ⟨false, true, false, "n"⟩
    ⟨false, false, true, "n"⟩
    (by decide) rfl rfl rfl rfl rfl rfl rfl (by decide)

end CheatingDetection
